import Mathlib

/-!
Verification of the rebol-ffi extension (struct/field schema model, scalar
value codec, FFI descriptor preparation, routine and callback dispatch).

The definitions below are a shallow embedding of the C sources:
  - `src/t-struct.c`   (Get_Scalar_In_Struct, Set_Scalar_In_Struct_core,
                        Same_Fields, Total_Struct_Dimensionality,
                        Prepare_Field_For_Ffi, Make_Struct, EQUAL_Q,
                        DESTROY_STRUCT_STORAGE)
  - `src/t-routine.c`  (Trap_Cell_To_Ffi, Routine_Dispatcher's variadic
                        counting, callback_dispatcher)
  - `src/stub-struct.h` (Field_* accessors, Cell_Struct liveness check)
  - `src/stub-routine.h` (Is_Action_Routine)

Machine integers are modelled as `Int`/`Nat` with explicit two's-complement
byte encoding (little endian, as on the x86 targets of this code).  Memory
is a `List Nat` of byte values.  `sizeof(void*)` is taken to be 8 (64-bit
build).  The FLOAT/DOUBLE branches of the scalar codec (IEEE bit patterns)
and the REBVAL tunneling branch are outside the scalar-codec model; no claim
below is decided by them.
-/

namespace RebolFfi

/-! ## Primitive type tags and widths (Parse_Field_Type, %t-struct.c) -/

/-- The primitive FFI type tags (EXT_SYM_XXX in the source). -/
inductive PrimTag where
  | uint8 | int8 | uint16 | int16 | uint32 | int32 | uint64 | int64
  | float | double | pointer
deriving DecidableEq, Repr

/-- Byte width assigned to each primitive tag by `Parse_Field_Type`
(`Init_Integer(Field_Detail(field, IDX_FIELD_WIDE), ...)`); pointer width is
`sizeof(void*)` = 8 on the 64-bit build modelled here. -/
def primWidth : PrimTag → Nat
  | .uint8 => 1 | .int8 => 1
  | .uint16 => 2 | .int16 => 2
  | .uint32 => 4 | .int32 => 4
  | .uint64 => 8 | .int64 => 8
  | .float => 4 | .double => 8
  | .pointer => 8

/-! ## Byte-level memory model -/

/-- Little-endian byte encoding of a natural number into `w` bytes. -/
def bytesLE : Nat → Nat → List Nat
  | 0, _ => []
  | w + 1, v => (v % 256) :: bytesLE w (v / 256)

/-- Decode a little-endian byte list to an unsigned natural number. -/
def unsignedOfBytes : List Nat → Nat
  | [] => 0
  | b :: rest => b + 256 * unsignedOfBytes rest

/-- Decode `w` little-endian bytes as a two's-complement signed integer. -/
def signedOfBytes (w : Nat) (bs : List Nat) : Int :=
  let u := unsignedOfBytes bs
  if u < 2 ^ (8 * w - 1) then (u : Int) else (u : Int) - 2 ^ (8 * w)

/-- Two's-complement representation of `i` in `w` bytes, as a natural
number below `2 ^ (8*w)` (what a C cast to the w-byte unsigned type keeps). -/
def twosComp (w : Nat) (i : Int) : Nat :=
  (i % (2 ^ (8 * w) : Nat)).toNat

/-- Overwrite `bs.length` bytes of `mem` starting at `addr`. -/
def writeBytes (mem : List Nat) (addr : Nat) (bs : List Nat) : List Nat :=
  mem.take addr ++ bs ++ mem.drop (addr + bs.length)

/-- Read `w` bytes of `mem` starting at `addr`. -/
def readBytes (mem : List Nat) (addr w : Nat) : List Nat :=
  (mem.drop addr).take w

/-! ## Field schemas (StructField arrays, %stub-struct.h)

A `StructField` models one field of a struct (or the top-level schema of a
struct, reused recursively).  Its IDX_FIELD_TYPE slot is a WORD! (primitive
tag) or a BLOCK! of subfields; IDX_FIELD_DIMENSION is an INTEGER! or BLANK!;
IDX_FIELD_OFFSET and IDX_FIELD_WIDE are integers.  `SFields` is the fields
array of a struct schema. -/

mutual

inductive SFieldTy where
  | prim (t : PrimTag)
  | strct (subs : SFields)

inductive SField where
  | mk (name : Option Nat) (ty : SFieldTy) (dim : Option Nat)
       (offset : Nat) (width : Nat)

inductive SFields where
  | nil
  | cons (f : SField) (rest : SFields)

end

/-- `Field_Is_Struct`: the IDX_FIELD_TYPE slot is a BLOCK! of subfields. -/
def sfieldIsStruct : SField → Bool
  | .mk _ (.strct _) _ _ _ => true
  | .mk _ (.prim _) _ _ _ => false

/-- The `Field_Is_C_Array(field) ? Field_Dimension(field) : 1` idiom used
throughout %t-struct.c. -/
def sfieldDim : SField → Nat
  | .mk _ _ dim _ _ => dim.getD 1

/-- `Field_Offset`. -/
def sfieldOffset : SField → Nat
  | .mk _ _ _ off _ => off

/-- `Field_Width`. -/
def sfieldWidth : SField → Nat
  | .mk _ _ _ _ w => w

/-- `Field_Total_Size`: width times dimension for a C array, else width. -/
def sfieldTotalSize : SField → Nat
  | .mk _ _ dim _ w => match dim with
      | some d => w * d
      | none => w

/-- The word symbol stored in IDX_FIELD_TYPE when the field is a primitive
(`Field_Type_Id`); `none` for a struct field, where that slot is a BLOCK!. -/
def sfieldTypeTag : SField → Option PrimTag
  | .mk _ (.prim t) _ _ _ => some t
  | .mk _ (.strct _) _ _ _ => none

/-! ## Total_Struct_Dimensionality and Prepare_Field_For_Ffi (%t-struct.c) -/

mutual

/-- `Total_Struct_Dimensionality`: recursively counts data elements inside a
struct.  For a struct-typed field it adds the recursive count of the
subfields (the field's own array dimension is not consulted); for any
other field it adds the array dimension (1 when scalar). -/
def totalStructDimensionality : SFields → Nat
  | .nil => 0
  | .cons f rest => totalDimContrib f + totalStructDimensionality rest

/-- One field's contribution inside `totalStructDimensionality`. -/
def totalDimContrib : SField → Nat
  | .mk _ (.strct subs) _ _ _ => totalStructDimensionality subs
  | .mk _ (.prim _) dim _ _ => dim.getD 1

end

/-- The ffi_type value tree: stock primitive descriptors, or a
FFI_TYPE_STRUCT descriptor with its `elements` array. -/
inductive FfiTypeV where
  | prim (t : PrimTag)
  | strct (elems : List FfiTypeV)

mutual

/-- `Field_Ffi_Type`: the descriptor cached in IDX_FIELD_FFTYPE.  A primitive
field holds the stock descriptor for its tag (`Get_Ffi_Type_For_Symbol`); a
struct field borrows the descriptor `Prepare_Field_For_Ffi` built for the
inner struct. -/
def fieldFfiType : SField → FfiTypeV
  | .mk _ (.prim t) _ _ _ => .prim t
  | .mk _ (.strct subs) _ _ _ => .strct (prepareFfiElements subs)

/-- The sequence of entries the loop in `Prepare_Field_For_Ffi` writes into
`fftype->elements` (before the null terminator): for each field in order,
`dimension` copies of that field's own ffi_type, where dimension is
`Field_Is_C_Array(field) ? Field_Dimension(field) : 1`. -/
def prepareFfiElements : SFields → List FfiTypeV
  | .nil => []
  | .cons f rest =>
      List.replicate (sfieldDim f) (fieldFfiType f) ++ prepareFfiElements rest

end

/-- The final value of the write index `j` in `Prepare_Field_For_Ffi`:
how many element entries the loop writes (the null sentinel then goes to
index `j`, so `j + 1` slots are touched in total, against an allocation of
`Total_Struct_Dimensionality + 1` slots). -/
def ffiElementsWrittenCount (fs : SFields) : Nat :=
  (prepareFfiElements fs).length

/-! ## Same_Fields and EQUAL_Q (%t-struct.c) -/

mutual

/-- `Same_Fields`: array lengths must agree (the walk below fails on length
mismatch exactly when the C length precheck does), then each field pair is
compared. -/
def sameFields : SFields → SFields → Bool
  | .nil, .nil => true
  | .cons a as, .cons b bs => sameFieldsPair a b && sameFields as bs
  | _, _ => false

/-- One pair inside `Same_Fields`: if `a` is a struct then `b` must be a
struct with `Same_Fields` subfields; the IDX_FIELD_TYPE slots must agree
(WORD! tags equal; for two struct fields both slots are BLOCK!s); if `a` is
a C array then `b` must be an array of the same dimension (nothing is
checked when only `b` is an array, mirroring the one-sided C test); the
offsets must agree.  Field names and widths are not compared (the width
agreement is only a debug assert in the source). -/
def sameFieldsPair : SField → SField → Bool
  | .mk _ aty adim aoff _, .mk _ bty bdim boff _ =>
    (match aty, bty with
     | .strct asubs, .strct bsubs => sameFields asubs bsubs
     | .strct _, .prim _ => false
     | .prim ta, .prim tb => ta == tb
     | .prim _, .strct _ => false) &&
    (match adim with
     | some ad => bdim == some ad
     | none => true) &&
    (aoff == boff)

end

/-- A STRUCT! value as consulted by `EQUAL_Q`: the identity of the schema's
fields array (`Cell_Struct_Fields_Array` is compared as a *pointer*), the
contents of that array, the schema total size (`Cell_Struct_Total_Size`),
the bytes from `Cell_Struct_Data_Head`, and the instance offset
(`MISC_STRUCT_OFFSET`, which EQUAL_Q does not consult). -/
structure StructVal where
  fieldsId : Nat
  fields : SFields
  totalSize : Nat
  data : List Nat
  offset : Nat

/-- `IMPLEMENT_GENERIC(EQUAL_Q, Is_Struct)`: if the two fields-array pointers
differ the result is false; otherwise the first `Cell_Struct_Total_Size(a)`
bytes of the two data heads are compared with memcmp. -/
def equalQ (a b : StructVal) : Bool :=
  if a.fieldsId != b.fieldsId then false
  else (List.take a.totalSize a.data) == (List.take a.totalSize b.data)

/-! ## Make_Struct field layout (%t-struct.c)

`Make_Struct` walks the declared field entries, keeping a running byte
offset that starts at 0.  Each field records the current offset in
IDX_FIELD_OFFSET, then the offset advances by `width * dimension` (its
`step`).  The commented-out alignment code means no padding is ever added.
Oversize widths, dimensions, steps and cumulative offsets are rejected
against `VAL_STRUCT_LIMIT` (= UINT32_MAX).  The model below covers the
per-field layout loop; the digesting of each entry's spec block into a
width/dimension pair (`Parse_Field_Type`) is upstream of it. -/

/-- One declared field entry as digested by `Parse_Field_Type`: its element
width (IDX_FIELD_WIDE) and optional array dimension (IDX_FIELD_DIMENSION). -/
structure FieldDecl where
  width : Nat
  dim : Option Nat

/-- The `Field_Is_C_Array(field) ? Field_Dimension(field) : 1` dimension. -/
def declDimension (d : FieldDecl) : Nat := d.dim.getD 1

/-- The `step` a field advances the running offset by: width times
dimension. -/
def declStep (d : FieldDecl) : Nat := d.width * declDimension d

/-- `VAL_STRUCT_LIMIT` (UINT32_MAX). -/
def structLimit : Nat := 4294967295

/-- The field-layout loop of `Make_Struct`, from a running offset: assigns
each field the current offset, rejects a width above UINT32_MAX, a dimension
above UINT32_MAX, a step above `VAL_STRUCT_LIMIT`, or a cumulative offset
above `VAL_STRUCT_LIMIT`, and finally records the ending offset as the
schema's total size (IDX_FIELD_WIDE of the schema).  Returns the per-field
offsets and the total size. -/
def makeStructLayoutAux : Nat → List FieldDecl → Option (List Nat × Nat)
  | offset, [] => some ([], offset)
  | offset, d :: rest =>
      if d.width > structLimit then none
      else if declDimension d > structLimit then none
      else if declStep d > structLimit then none
      else if offset + declStep d > structLimit then none
      else match makeStructLayoutAux (offset + declStep d) rest with
        | none => none
        | some (offs, total) => some (offset :: offs, total)

/-- `Make_Struct`'s layout outcome for a list of declared fields (the
running offset starts at 0). -/
def makeStructLayout (decls : List FieldDecl) : Option (List Nat × Nat) :=
  makeStructLayoutAux 0 decls

/-! ## The scalar value codec (%t-struct.c)

`Set_Scalar_In_Struct_core` and `Get_Scalar_In_Struct` translate between a
host INTEGER! (an int64 payload, modelled as `Int`) and raw bytes at
`offset + Field_Offset(field) + n * Field_Width(field)`.  The model covers
the integer-category tags and POINTER (on the 64-bit build).  The FLOAT and
DOUBLE cases (IEEE bit patterns), the DECIMAL!-to-integer coercion, the
REBVAL tunneling case and the nested-struct memcpy case are outside this
byte-level model; no claim below is decided by them. -/

/-- The scalar tags covered by the byte-level codec model. -/
inductive CodecTag where
  | uint8 | int8 | uint16 | int16 | uint32 | int32 | uint64 | int64 | pointer
deriving DecidableEq, Repr

/-- Width of the C type each codec tag writes/reads
(`sizeof(void*)` = 8). -/
def codecWidth : CodecTag → Nat
  | .uint8 => 1 | .int8 => 1
  | .uint16 => 2 | .int16 => 2
  | .uint32 => 4 | .int32 => 4
  | .uint64 => 8 | .int64 => 8
  | .pointer => 8

/-- A non-struct field as consulted by the scalar codec. -/
structure ScalarField where
  t : CodecTag
  dim : Option Nat
  offset : Nat
  width : Nat

/-- `Set_Scalar_In_Struct_core` on an INTEGER! host value `i` (its int64
payload): range-check per tag (`Error_Overflow_Raw` on violation, modelled
as `none`), then write the C cast's bytes at
`data_head + offset + Field_Offset + n * Field_Width`.  INT64 stores the
payload unchecked; UINT64 checks only `i < 0`; POINTER's overflow check
compares against UINT32_MAX only when `sizeof(void*) == 4`, so it is
inactive on the 64-bit build modelled here. -/
def setScalarInStructCore (dataHead : List Nat) (offset : Nat)
    (f : ScalarField) (n : Nat) (i : Int) : Option (List Nat) :=
  let addr := offset + f.offset + n * f.width
  let write : Nat → Option (List Nat) := fun w =>
    some (writeBytes dataHead addr (bytesLE w (twosComp w i)))
  match f.t with
  | .int8 => if i > 0x7f ∨ i < -0x80 then none else write 1
  | .uint8 => if i > 0xff ∨ i < 0 then none else write 1
  | .int16 => if i > 0x7fff ∨ i < -0x8000 then none else write 2
  | .uint16 => if i > 0xffff ∨ i < 0 then none else write 2
  | .int32 => if i > 0x7fffffff ∨ i < -0x80000000 then none else write 4
  | .uint32 => if i > 0xffffffff ∨ i < 0 then none else write 4
  | .int64 => write 8
  | .uint64 => if i < 0 then none else write 8
  | .pointer => write 8

/-- `Get_Scalar_In_Struct` on a non-struct field: read the C value at
`Struct_Data_Head + STRUCT_OFFSET + Field_Offset + n * Field_Width` and
produce an INTEGER!.  The EXT_SYM_INT16 case of the source reads
`*cast(int8_t*, p)` — a single sign-extended byte — unlike every other
case, which reads its full width (compare the int16_t read in
`Ffi_To_Cell`). -/
def getScalarInStruct (dataHead : List Nat) (stuOffset : Nat)
    (f : ScalarField) (n : Nat) : Int :=
  let addr := stuOffset + f.offset + n * f.width
  match f.t with
  | .uint8 => (unsignedOfBytes (readBytes dataHead addr 1) : Int)
  | .int8 => signedOfBytes 1 (readBytes dataHead addr 1)
  | .uint16 => (unsignedOfBytes (readBytes dataHead addr 2) : Int)
  | .int16 => signedOfBytes 1 (readBytes dataHead addr 1)
  | .uint32 => (unsignedOfBytes (readBytes dataHead addr 4) : Int)
  | .int32 => signedOfBytes 4 (readBytes dataHead addr 4)
  | .uint64 => (unsignedOfBytes (readBytes dataHead addr 8) : Int)
  | .int64 => signedOfBytes 8 (readBytes dataHead addr 8)
  | .pointer => signedOfBytes 8 (readBytes dataHead addr 8)

/-! ## Actions fabricated by the FFI (%t-routine.c, %stub-routine.h) -/

/-- What IDX_ROUTINE_ORIGIN holds: the owning LIBRARY! (make-routine), SPACE
(make-routine-raw, no library), or the wrapped ACTION! (wrap-callback). -/
inductive ActionOrigin where
  | library | space | action
deriving DecidableEq, Repr

/-- An ACTION! as consulted by `Is_Action_Routine` and `Trap_Cell_To_Ffi`:
whether its phase is a Details stub, whether its dispatcher is
`Routine_Dispatcher`, the IDX_ROUTINE_ORIGIN category, and the address held
in IDX_ROUTINE_CFUNC. -/
structure ActionV where
  isDetails : Bool
  dispatchesRoutine : Bool
  origin : ActionOrigin
  cfuncAddr : Nat
deriving DecidableEq, Repr

/-- `Is_Action_Routine` (%stub-routine.h): the phase is a Details stub whose
dispatcher is `&Routine_Dispatcher`. -/
def isActionRoutine (a : ActionV) : Bool :=
  a.isDetails && a.dispatchesRoutine

/-- `Is_Routine_Callback` (%stub-routine.h): IDX_ROUTINE_ORIGIN holds an
ACTION!. -/
def isRoutineCallback (a : ActionV) : Bool :=
  a.origin == ActionOrigin.action

/-- `Trap_Alloc_Ffi_Action_For_Spec` + `Make_Dispatch_Details`: every action
the FFI fabricates is a Details phase dispatched by `Routine_Dispatcher`. -/
def allocFfiAction (origin : ActionOrigin) (addr : Nat) : ActionV :=
  ⟨true, true, origin, addr⟩

/-- MAKE-ROUTINE: wraps a DLL function; origin is the LIBRARY!. -/
def makeRoutineAction (addr : Nat) : ActionV :=
  allocFfiAction .library addr

/-- MAKE-ROUTINE-RAW: wraps a raw address; origin is SPACE. -/
def makeRoutineRawAction (addr : Nat) : ActionV :=
  allocFfiAction .space addr

/-- WRAP-CALLBACK: wraps an ACTION!; origin is that action, and
IDX_ROUTINE_CFUNC holds the fabricated thunk address. -/
def wrapCallbackAction (thunkAddr : Nat) : ActionV :=
  allocFfiAction .action thunkAddr

/-- Host values as consulted by `Trap_Cell_To_Ffi`: an INTEGER! (int64
payload), a null, a TEXT! or BLOB! (whose series-data address the pointer
case copies), an ACTION!, or any other category. -/
inductive FfiVal where
  | integer (i : Int)
  | nulled
  | text (addr : Nat)
  | blob (addr : Nat)
  | act (a : ActionV)
  | other
deriving DecidableEq, Repr

/-- `Trap_Cell_To_Ffi` on a primitive WORD! schema: convert a host value to
the byte pattern of the C argument.  Every integer case applies a plain C
cast to the target width — `buffer.u8 = cast(uint8_t, VAL_INT64(arg))` and
so on — with no range check, so out-of-range payloads are truncated to the
low bytes.  The pointer case accepts a null (stores 0), an INTEGER!
(the address), a TEXT!/BLOB! (its data pointer), or an ACTION! satisfying
`Is_Action_Routine` (stores its CFUNC entry address); any other value is an
`Error_Arg_Type`/`Error_User` result.  Non-integer values in the integer
cases are `Error_Arg_Type` results.  (FLOAT/DOUBLE take DECIMAL! payloads
and the BLOCK!-schema struct branch takes STRUCT! values; neither is part
of this byte-level model.) -/
def trapCellToFfi (schema : CodecTag) (arg : FfiVal) : Except Unit (List Nat) :=
  match schema with
  | .uint8 => match arg with
      | .integer i => .ok (bytesLE 1 (twosComp 1 i))
      | _ => .error ()
  | .int8 => match arg with
      | .integer i => .ok (bytesLE 1 (twosComp 1 i))
      | _ => .error ()
  | .uint16 => match arg with
      | .integer i => .ok (bytesLE 2 (twosComp 2 i))
      | _ => .error ()
  | .int16 => match arg with
      | .integer i => .ok (bytesLE 2 (twosComp 2 i))
      | _ => .error ()
  | .uint32 => match arg with
      | .integer i => .ok (bytesLE 4 (twosComp 4 i))
      | _ => .error ()
  | .int32 => match arg with
      | .integer i => .ok (bytesLE 4 (twosComp 4 i))
      | _ => .error ()
  | .uint64 => match arg with
      | .integer i => .ok (bytesLE 8 (twosComp 8 i))
      | _ => .error ()
  | .int64 => match arg with
      | .integer i => .ok (bytesLE 8 (twosComp 8 i))
      | _ => .error ()
  | .pointer => match arg with
      | .nulled => .ok (bytesLE 8 0)
      | .integer i => .ok (bytesLE 8 (twosComp 8 i))
      | .text addr => .ok (bytesLE 8 (twosComp 8 (addr : Int)))
      | .blob addr => .ok (bytesLE 8 (twosComp 8 (addr : Int)))
      | .act a =>
          if isActionRoutine a then .ok (bytesLE 8 a.cfuncAddr)
          else .error ()
      | .other => .error ()

/-! ## Struct storage liveness (%stub-struct.h, DESTROY-STRUCT-STORAGE)

`Struct_Storage(stu)` is a BLOB! (Rebol-owned, growable bytes) or a HANDLE!
(external fixed address with a declared length).  `Cell_Struct` — the
accessor *every* STRUCT! generic goes through to obtain the instance —
fails with `Error_Bad_Memory_Raw` when the storage is a HANDLE! whose
length is 0 (the invalidated state), before any byte of the external
memory is touched. -/

/-- The storage cell of a StructInstance. -/
inductive Storage where
  | blob (bytes : List Nat)
  | handle (addr : Nat) (len : Nat)
deriving DecidableEq, Repr

/-- The errors of the storage-liveness paths. -/
inductive StorageErr where
  | badMemory
  | notExternal
  | alreadyDestroyed
deriving DecidableEq, Repr

/-- The liveness gate inside `Cell_Struct`: BLOB! storage is never
inaccessible; HANDLE! storage with length 0 fails with
`Error_Bad_Memory_Raw`. -/
def cellStructCheck : Storage → Except StorageErr Unit
  | .blob _ => .ok ()
  | .handle _ len => if len == 0 then .error .badMemory else .ok ()

/-- `DESTROY_STRUCT_STORAGE`: the argument is fetched through `Cell_Struct`
(so an already-invalidated handle fails the liveness gate first); BLOB!
storage is rejected; a handle of length 0 would be rejected as already
destroyed (unreachable after the gate); otherwise the handle length is set
to 0. -/
def destroyStructStorage (s : Storage) : Except StorageErr Storage :=
  match cellStructCheck s with
  | .error e => .error e
  | .ok _ =>
    match s with
    | .blob _ => .error .notExternal
    | .handle addr len =>
        if len == 0 then .error .alreadyDestroyed
        else .ok (.handle addr 0)

/-- The bytes an external handle's memory currently holds, as a view of an
external byte heap `ext` (address to byte). -/
def externalBytes (ext : Nat → Nat) (addr len : Nat) : List Nat :=
  (List.range len).map (fun k => ext (addr + k))

/-- A field read (PICK path of `TWEAK_P`): the instance is obtained through
`Cell_Struct` — the liveness gate — and only then is
`Get_Scalar_In_Struct` applied to the storage bytes. -/
def structPickScalar (ext : Nat → Nat) (s : Storage) (stuOffset : Nat)
    (f : ScalarField) (n : Nat) : Except StorageErr Int :=
  match cellStructCheck s with
  | .error e => .error e
  | .ok _ =>
    match s with
    | .blob bs => .ok (getScalarInStruct bs stuOffset f n)
    | .handle addr len =>
        .ok (getScalarInStruct (externalBytes ext addr len) stuOffset f n)

/-- A field write (POKE path of `TWEAK_P`): same `Cell_Struct` gate, then
`Set_Scalar_In_Struct` (whose own overflow result is the inner Option). -/
def structPokeScalar (ext : Nat → Nat) (s : Storage) (stuOffset : Nat)
    (f : ScalarField) (n : Nat) (i : Int) :
    Except StorageErr (Option (List Nat)) :=
  match cellStructCheck s with
  | .error e => .error e
  | .ok _ =>
    match s with
    | .blob bs => .ok (setScalarInStructCore bs stuOffset f n i)
    | .handle addr len =>
        .ok (setScalarInStructCore (externalBytes ext addr len) stuOffset f n i)

/-! ## callback_dispatcher (%t-routine.c) -/

/-- How the evaluation of the wrapped closure's code block ends: a normal
return with a value, a throw (`Eval_Any_List_At_Throws` returns true), or an
abrupt failure (the `ON_ABRUPT_FAILURE` rescue path). -/
inductive EvalOutcome where
  | normal (v : FfiVal)
  | thrown
  | abruptFailure
deriving DecidableEq, Repr

/-- The observable outcome of `callback_dispatcher`: a process abort
(`panic`), a return to the native caller with an optional write of encoded
bytes into the caller-supplied return slot (`none` = void return, nothing
written), or a raised error from the return-value encode (`fail`). -/
inductive CallbackResult where
  | processAbort
  | returned (written : Option (List Nat))
  | errorRaised
deriving DecidableEq, Repr

/-- `callback_dispatcher`: a throw panics (no catch across the FFI
boundary); an abrupt failure panics; a normal return with a void interface
(no return schema) writes nothing; a normal return with a return schema
encodes the result into the return slot via `Trap_Cell_To_Ffi`, whose error
is raised with `fail`. -/
def callbackDispatcher (retSchema : Option CodecTag) (outcome : EvalOutcome) :
    CallbackResult :=
  match outcome with
  | .thrown => .processAbort
  | .abruptFailure => .processAbort
  | .normal v =>
    match retSchema with
    | none => .returned none
    | some t =>
        match trapCellToFfi t v with
        | .error _ => .errorRaised
        | .ok bs => .returned (some bs)

/-! ## Routine_Dispatcher's variadic argument counting (%t-routine.c) -/

/-- One entry drained from the caller's VARARGS! stream onto the data
stack: an evaluated value or a type-annotation BLOCK!. -/
inductive VarItem where
  | value (v : FfiVal)
  | typeBlock (t : CodecTag)
deriving DecidableEq, Repr

/-- The count check after draining the stream: `TOP_INDEX - base` (the
number of drained entries) must be even, else the dispatcher fails before
any encode or native call; `num_variable` is half the count. -/
def drainedCountCheck (drained : List VarItem) : Except Unit Nat :=
  if drained.length % 2 != 0 then .error ()
  else .ok (drained.length / 2)

/-- `num_args = num_fixed + num_variable` — the argument count the
transient CIF is prepared with and the count of trailing encodes
performed. -/
def routineNumArgs (numFixed : Nat) (drained : List VarItem) :
    Except Unit Nat :=
  match drainedCountCheck drained with
  | .error e => .error e
  | .ok numVariable => .ok (numFixed + numVariable)

/-- A well-formed stream supplying n (value, type) pairs, as the data stack
receives them (the value at `dsp`, its type BLOCK! at `dsp + 1`). -/
def pushPairs (ps : List (FfiVal × CodecTag)) : List VarItem :=
  ps.flatMap (fun p => [.value p.1, .typeBlock p.2])

/-! ## Storage sharing between parent and sub-struct (%t-struct.c)

`Get_Scalar_In_Struct` on a struct-typed field does not copy bytes: it
allocates a new StructInstance, copies the parent's storage *cell* into it
(same backing series — note [1] in the source) and sets the child's
STRUCT_OFFSET to the parent offset plus the field offset.  Instances are
modelled as a storage identity plus an offset; a heap maps each storage
identity to its bytes. -/

/-- A StructInstance as a reference into shared storage. -/
structure StructInst where
  storageId : Nat
  offset : Nat
deriving DecidableEq, Repr

/-- Backing-series contents by storage identity. -/
abbrev SHeap := Nat → List Nat

/-- The struct-field branch of `Get_Scalar_In_Struct`: the child shares the
parent's storage (`Copy_Cell(Struct_Storage(sub_stu), Struct_Storage(stu))`)
and its offset is
`STRUCT_OFFSET(stu) + Field_Offset(field) + n * Field_Width(field)`. -/
def getStructFieldInstance (stu : StructInst) (fieldOffset width n : Nat) :
    StructInst :=
  ⟨stu.storageId, stu.offset + fieldOffset + n * width⟩

/-- `Set_Scalar_In_Struct` through an instance: the core setter applied to
the instance's backing bytes at its STRUCT_OFFSET; on success the backing
series' contents change in place (every instance sharing the storage sees
the new bytes). -/
def heapSetScalar (h : SHeap) (stu : StructInst) (f : ScalarField) (n : Nat)
    (i : Int) : Option SHeap :=
  match setScalarInStructCore (h stu.storageId) stu.offset f n i with
  | none => none
  | some mem => some (fun k => if k = stu.storageId then mem else h k)

/-- `Get_Scalar_In_Struct` (scalar case) through an instance. -/
def heapGetScalar (h : SHeap) (stu : StructInst) (f : ScalarField) (n : Nat) :
    Int :=
  getScalarInStruct (h stu.storageId) stu.offset f n

/-! ## Concrete inputs used by the counterexamples and witnesses -/

/-- An int16 field at offset 0 (for the C1 round-trip evaluation). -/
def exInt16Field : ScalarField := ⟨.int16, none, 0, 2⟩

/-- A uint8 field at offset 0. -/
def exUint8Field : ScalarField := ⟨.uint8, none, 0, 1⟩

/-- A single int8 leaf field (offset 0, width 1). -/
def exInt8Leaf : SField := .mk (some 0) (.prim .int8) none 0 1

/-- A field that is an array of 3 nested structs, each struct one int8
leaf (buildable as `s: [struct! [[a [int8]]] [3]]`). -/
def exStructArrayField : SField :=
  .mk (some 1) (.strct (.cons exInt8Leaf .nil)) (some 3) 0 1

/-- Schema fields: one array-of-structs field. -/
def exOverflowFields : SFields := .cons exStructArrayField .nil

/-- A two-leaf nested struct's fields: int8 at 0, int8 at 1. -/
def exTwoLeafInner : SFields :=
  .cons (.mk (some 0) (.prim .int8) none 0 1)
    (.cons (.mk (some 1) (.prim .int8) none 1 1) .nil)

/-- Schema fields: one scalar field that is a two-leaf nested struct. -/
def exUnderFields : SFields :=
  .cons (.mk (some 2) (.strct exTwoLeafInner) none 0 2) .nil

/-- Fields content shared (by copy, not by identity) between the two C4
instances: one uint8 field at offset 0. -/
def exC4Fields : SFields := .cons (.mk (some 0) (.prim .uint8) none 0 1) .nil

/-- First C4 instance: fields array identity 0, one data byte 7. -/
def exC4A : StructVal := ⟨0, exC4Fields, 1, [7], 0⟩

/-- Second C4 instance: same fields content under a *different* fields
array identity 1, identical data byte. -/
def exC4B : StructVal := ⟨1, exC4Fields, 1, [7], 0⟩

/-- Two C4 instances sharing the fields array (identity 5), equal data. -/
def exC4C : StructVal := ⟨5, exC4Fields, 2, [1, 2], 0⟩

/-- Same shared fields array, data differing in the second byte. -/
def exC4D : StructVal := ⟨5, exC4Fields, 2, [1, 3], 0⟩

/-- The C5 witness declarations: an int32 field and an int8[3] array
(the spec's worked example, total 4 + 3 = 7, offsets 0 and 4). -/
def exC5Decls : List FieldDecl := [⟨4, none⟩, ⟨1, some 3⟩]

/-! ## Helper lemmas -/

/-- Reading back the bytes just written at `addr` (which is within the
original buffer) returns exactly those bytes. -/
theorem readBytes_writeBytes (mem : List Nat) (a : Nat) (bs : List Nat)
    (h : a ≤ mem.length) :
    readBytes (writeBytes mem a bs) a bs.length = bs := by
  have ht : (mem.take a).length = a := by
    rw [List.length_take]; omega
  unfold readBytes writeBytes
  rw [List.append_assoc, List.drop_left' ht, List.take_left]

/-- A stream of n (value, type) pairs drains to 2n stack entries. -/
theorem pushPairs_length (ps : List (FfiVal × CodecTag)) :
    (pushPairs ps).length = 2 * ps.length := by
  induction ps with
  | nil => rfl
  | cons p rest ih =>
      simp only [pushPairs, List.flatMap_cons, List.length_append,
        List.length_cons, List.length_nil] at ih ⊢
      omega

/-- The layout loop of `Make_Struct`, started at any running offset:
on success, the ending offset is the start plus the sum of all steps, one
offset is recorded per field, and each field's offset is the start plus the
steps of the fields before it. -/
theorem makeStructLayoutAux_spec :
    ∀ (decls : List FieldDecl) (off : Nat) (offs : List Nat) (total : Nat),
      makeStructLayoutAux off decls = some (offs, total) →
      total = off + (decls.map declStep).sum ∧
      offs.length = decls.length ∧
      ∀ i, i < decls.length →
        offs[i]? = some (off + ((decls.take i).map declStep).sum) := by
  intro decls
  induction decls with
  | nil =>
      intro off offs total h
      simp only [makeStructLayoutAux, Option.some.injEq, Prod.mk.injEq] at h
      obtain ⟨h1, h2⟩ := h
      subst h1; subst h2
      exact ⟨by simp, rfl, fun i hi => absurd hi (Nat.not_lt_zero i)⟩
  | cons d rest ih =>
      intro off offs total h
      simp only [makeStructLayoutAux] at h
      split at h
      · cases h
      split at h
      · cases h
      split at h
      · cases h
      split at h
      · cases h
      cases hrec : makeStructLayoutAux (off + declStep d) rest with
      | none => rw [hrec] at h; cases h
      | some p =>
          obtain ⟨offs', total'⟩ := p
          rw [hrec] at h
          simp only [Option.some.injEq, Prod.mk.injEq] at h
          obtain ⟨ho, ht⟩ := h
          obtain ⟨iht, ihl, ihoffs⟩ := ih (off + declStep d) offs' total' hrec
          subst ho; subst ht
          refine ⟨?_, ?_, ?_⟩
          · rw [iht]
            simp only [List.map_cons, List.sum_cons]
            omega
          · simp [ihl]
          · intro i hi
            cases i with
            | zero => simp
            | succ j =>
                have hj : j < rest.length := by
                  simpa using hi
                have hrecj := ihoffs j hj
                simpa [Nat.add_assoc] using hrecj

/-! ## The claims -/

/-- C1: the claim states that for every primitive tag, writing a boundary
value into a struct field and reading it back returns exactly the written
value.  At the int16 boundary value 32767 the write stores the bytes
FF 7F, but `Get_Scalar_In_Struct`'s EXT_SYM_INT16 case reads a single
sign-extended byte (`*cast(int8_t*, p)`), returning -1 instead of 32767. -/
theorem c1_int16_boundary_roundtrip_divergence :
    setScalarInStructCore [0, 0] 0 exInt16Field 0 32767 = some [255, 127] ∧
    getScalarInStruct [255, 127] 0 exInt16Field 0 = -1 ∧
    (-1 : Int) ≠ 32767 := by
  refine ⟨by decide, by decide, by decide⟩

/-- C2: the claim states that encoding an out-of-range integer errors on
both the struct-field path and the FFI-argument path.  The struct-field
path (`Set_Scalar_In_Struct_core`) does error on 256-for-uint8, but
`Trap_Cell_To_Ffi` applies a bare C cast: encoding 256 into a uint8
argument slot succeeds and stores the wrapped byte 0. -/
theorem c2_ffi_arg_encode_wraps_silently :
    trapCellToFfi .uint8 (.integer 256) = .ok [0] ∧
    setScalarInStructCore [0] 0 exUint8Field 0 256 = none := by
  refine ⟨rfl, by decide⟩

/-- C3: the claim states that `Prepare_Field_For_Ffi` writes one descriptor
entry per recursively-flattened scalar leaf, matching the allocation of
`Total_Struct_Dimensionality + 1` slots and staying in bounds.  In fact the
writer emits one entry per *array element of each top-level field* (a nested
struct contributes its single borrowed descriptor per element), so for a
field holding an array of 3 one-leaf structs it writes 3 entries plus the
sentinel into an allocation of 1 + 1 slots (out of bounds), and for a
scalar two-leaf nested struct it writes 1 entry where 2 were allocated. -/
theorem c3_descriptor_count_mismatch :
    ffiElementsWrittenCount exOverflowFields = 3 ∧
    totalStructDimensionality exOverflowFields = 1 ∧
    totalStructDimensionality exOverflowFields + 1 <
      ffiElementsWrittenCount exOverflowFields + 1 ∧
    ffiElementsWrittenCount exUnderFields = 1 ∧
    totalStructDimensionality exUnderFields = 2 := by
  refine ⟨by decide, by decide, by decide, by decide, by decide⟩

/-- C4 (counterexample): two instances whose schemas are field-by-field
equal (here: literally identical fields content, so `Same_Fields` agrees)
and whose data bytes are identical, but whose fields arrays are distinct
objects — `EQUAL_Q` compares `Cell_Struct_Fields_Array` as a pointer and
returns false, while the claim requires true. -/
theorem c4_equal_content_distinct_arrays_unequal :
    sameFields exC4A.fields exC4B.fields = true ∧
    exC4A.data = exC4B.data ∧
    exC4A.totalSize = exC4B.totalSize ∧
    equalQ exC4A exC4B = false := by
  refine ⟨by decide, by decide, by decide, by decide⟩

/-- C4 (amended): equality holds only between instances sharing the *same*
fields-array object; with a shared schema, instances whose first
total-size bytes agree compare equal, and a difference at any byte index
below the total size makes the comparison false. -/
theorem c4_equalQ_shared_schema (a b : StructVal)
    (hid : a.fieldsId = b.fieldsId) :
    (List.take a.totalSize a.data = List.take a.totalSize b.data →
      equalQ a b = true) ∧
    (∀ i, i < a.totalSize → a.data[i]? ≠ b.data[i]? →
      equalQ a b = false) := by
  constructor
  · intro hdata
    simp [equalQ, hid, hdata]
  · intro i hi hne
    have hneq : List.take a.totalSize a.data ≠ List.take a.totalSize b.data := by
      intro he
      apply hne
      have h1 : (a.data.take a.totalSize)[i]? = a.data[i]? := by
        rw [List.getElem?_take]; simp [hi]
      have h2 : (b.data.take a.totalSize)[i]? = b.data[i]? := by
        rw [List.getElem?_take]; simp [hi]
      rw [← h1, ← h2, he]
    simp [equalQ, hid, hneq]

/-- C4 witness: with a shared fields array, byte-identical instances
compare equal, and instances differing at byte index 1 compare unequal. -/
theorem c4_equalQ_shared_schema_witness :
    equalQ exC4C exC4C = true ∧ equalQ exC4C exC4D = false :=
  ⟨(c4_equalQ_shared_schema exC4C exC4C rfl).1 rfl,
   (c4_equalQ_shared_schema exC4C exC4D rfl).2 1 (by decide) (by decide)⟩

/-- C5: when `Make_Struct`'s layout loop succeeds, the schema total size is
the sum over the declared fields of width times dimension (dimension
defaulting to 1), and each field's recorded offset is the sum of the total
sizes of the fields declared before it — no alignment padding. -/
theorem c5_packed_layout (decls : List FieldDecl) (offs : List Nat)
    (total : Nat) (h : makeStructLayout decls = some (offs, total)) :
    total = (decls.map declStep).sum ∧
    offs.length = decls.length ∧
    ∀ i, i < decls.length →
      offs[i]? = some (((decls.take i).map declStep).sum) := by
  obtain ⟨ht, hl, ho⟩ := makeStructLayoutAux_spec decls 0 offs total h
  refine ⟨by simpa using ht, hl, ?_⟩
  intro i hi
  simpa using ho i hi

/-- C5 witness: the spec's worked example — int32 then int8[3] — lays out
with total size 7 and offsets 0 and 4. -/
theorem c5_packed_layout_witness :
    (7 : Nat) = (exC5Decls.map declStep).sum ∧
    ([0, 4] : List Nat).length = exC5Decls.length :=
  ⟨(c5_packed_layout exC5Decls [0, 4] 7 (by decide)).1,
   (c5_packed_layout exC5Decls [0, 4] 7 (by decide)).2.1⟩

/-- C6 (counterexample): a plain routine made by MAKE-ROUTINE (wrapping a
DLL function, origin a LIBRARY!, not a callback) passed as a pointer-typed
FFI argument is *accepted* by `Trap_Cell_To_Ffi` — its CFUNC address is
encoded — while the claim requires an error for non-callback actions. -/
theorem c6_plain_routine_accepted_as_pointer :
    isRoutineCallback (makeRoutineAction 42) = false ∧
    trapCellToFfi .pointer (.act (makeRoutineAction 42)) =
      .ok (bytesLE 8 42) := by
  exact ⟨rfl, rfl⟩

/-- C6 (amended): encoding an ACTION! as a pointer argument succeeds
exactly when `Is_Action_Routine` holds — the action's dispatcher is the
FFI's `Routine_Dispatcher` — which is the case for the products of
MAKE-ROUTINE and MAKE-ROUTINE-RAW (plain routines) as well as
WRAP-CALLBACK (callback bridges); the encoded bytes are the action's CFUNC
entry address, and other actions are an error. -/
theorem c6_pointer_action_encode (a : ActionV) (addr1 addr2 addr3 : Nat) :
    trapCellToFfi .pointer (.act a) =
      (if isActionRoutine a then Except.ok (bytesLE 8 a.cfuncAddr)
       else Except.error ()) ∧
    isActionRoutine (makeRoutineAction addr1) = true ∧
    isActionRoutine (makeRoutineRawAction addr2) = true ∧
    isActionRoutine (wrapCallbackAction addr3) = true ∧
    isRoutineCallback (wrapCallbackAction addr3) = true ∧
    isRoutineCallback (makeRoutineAction addr1) = false := by
  exact ⟨rfl, rfl, rfl, rfl, rfl, rfl⟩

/-- C7: invalidating a live externally-backed instance sets its handle
length to 0; afterwards every field read or write fails with the liveness
error from `Cell_Struct` before touching any external byte (the result
does not depend on the external memory `ext` at the stale address), and a
second invalidation also fails with an error instead of repeating the
destruction. -/
theorem c7_invalidation_oneshot (addr len : Nat) (hlen : len ≠ 0) :
    destroyStructStorage (.handle addr len) = .ok (.handle addr 0) ∧
    (∀ ext off f n, structPickScalar ext (.handle addr 0) off f n =
      .error .badMemory) ∧
    (∀ ext off f n i, structPokeScalar ext (.handle addr 0) off f n i =
      .error .badMemory) ∧
    destroyStructStorage (.handle addr 0) = .error .badMemory := by
  refine ⟨?_, fun ext off f n => rfl, fun ext off f n i => rfl, rfl⟩
  simp [destroyStructStorage, cellStructCheck, hlen]

/-- C7 witness: a live external handle at address 1000 with length 4. -/
theorem c7_invalidation_oneshot_witness :
    destroyStructStorage (.handle 1000 4) = .ok (.handle 1000 0) ∧
    destroyStructStorage (.handle 1000 0) = .error .badMemory :=
  ⟨(c7_invalidation_oneshot 1000 4 (by decide)).1,
   (c7_invalidation_oneshot 1000 4 (by decide)).2.2.2⟩

/-- C8: a throw or abrupt failure escaping the wrapped closure makes
`callback_dispatcher` abort the process (panic) rather than return across
the native boundary; a normal return with a void interface writes nothing
into the return slot; a normal return with a return schema encodes the
result into the return slot; and any dispatch that returns to the native
caller came from a normal closure return. -/
theorem c8_callback_abort_and_return_encoding (ret : Option CodecTag)
    (t : CodecTag) (v : FfiVal) (bs : List Nat) :
    callbackDispatcher ret .thrown = .processAbort ∧
    callbackDispatcher ret .abruptFailure = .processAbort ∧
    callbackDispatcher none (.normal v) = .returned none ∧
    (trapCellToFfi t v = .ok bs →
      callbackDispatcher (some t) (.normal v) = .returned (some bs)) ∧
    (∀ o written, callbackDispatcher ret o = .returned written →
      ∃ w, o = .normal w) := by
  refine ⟨rfl, rfl, rfl, ?_, ?_⟩
  · intro h
    simp [callbackDispatcher, h]
  · intro o written h
    cases o with
    | normal w => exact ⟨w, rfl⟩
    | thrown => simp [callbackDispatcher] at h
    | abruptFailure => simp [callbackDispatcher] at h

/-- C8 witness: a closure normally returning INTEGER! 7 through a uint8
return schema writes the encoded byte 7. -/
theorem c8_callback_witness :
    callbackDispatcher (some .uint8) (.normal (.integer 7)) =
      .returned (some [7]) :=
  (c8_callback_abort_and_return_encoding none .uint8 (.integer 7) [7]).2.2.2.1
    rfl

/-- C9: draining the variadic stream must yield an even entry count —
otherwise `Routine_Dispatcher` fails before building the CIF or making the
native call — and a stream of n (value, type) pairs yields exactly n
trailing arguments, so the call proceeds with `num_fixed + n` arguments. -/
theorem c9_variadic_pairing (numFixed : Nat) (drained : List VarItem)
    (ps : List (FfiVal × CodecTag)) :
    (drained.length % 2 ≠ 0 → routineNumArgs numFixed drained = .error ()) ∧
    drainedCountCheck (pushPairs ps) = .ok ps.length ∧
    routineNumArgs numFixed (pushPairs ps) = .ok (numFixed + ps.length) := by
  have hl := pushPairs_length ps
  have heven : (pushPairs ps).length % 2 = 0 := by omega
  have hdiv : (pushPairs ps).length / 2 = ps.length := by omega
  have hcheck : drainedCountCheck (pushPairs ps) = .ok ps.length := by
    simp [drainedCountCheck, heven, hdiv]
  refine ⟨?_, hcheck, ?_⟩
  · intro hodd
    have hone : drained.length % 2 = 1 := by omega
    simp [routineNumArgs, drainedCountCheck, hone]
  · simp [routineNumArgs, hcheck]

/-- C9 witness: a 3-entry (odd) drain fails; the spec's example stream of
two pairs — (int32, 7) and (float64-as-pointer-width stand-in uint64, 2
pairs suffice for the count property) — proceeds with 2 trailing
arguments. -/
theorem c9_variadic_pairing_witness :
    routineNumArgs 1 [.value (.integer 0), .typeBlock .int32,
      .value (.integer 1)] = .error () ∧
    routineNumArgs 1 (pushPairs [(.integer 7, .int32),
      (.integer 2, .uint64)]) = .ok 3 :=
  ⟨(c9_variadic_pairing 1 [.value (.integer 0), .typeBlock .int32,
      .value (.integer 1)] []).1 (by decide),
   (c9_variadic_pairing 1 [] [(.integer 7, .int32),
      (.integer 2, .uint64)]).2.2⟩

/-- C10: reading a struct-typed field does not copy bytes — the returned
sub-struct instance references the parent's backing storage with the
offset advanced by the field offset — so a scalar write through the
sub-struct is observed by a subsequent read of the same field path from
the parent. -/
theorem c10_substruct_shares_parent_storage (h : SHeap) (parent : StructInst)
    (fieldOffset width : Nat) (g : ScalarField) (v : Int)
    (hg : g.t = .uint8) (hv0 : 0 ≤ v) (hv1 : v ≤ 255)
    (haddr : parent.offset + fieldOffset + g.offset ≤
      (h parent.storageId).length) :
    (getStructFieldInstance parent fieldOffset width 0).storageId =
      parent.storageId ∧
    (getStructFieldInstance parent fieldOffset width 0).offset =
      parent.offset + fieldOffset ∧
    ∀ h', heapSetScalar h (getStructFieldInstance parent fieldOffset width 0)
        g 0 v = some h' →
      heapGetScalar h' (getStructFieldInstance parent fieldOffset width 0)
        g 0 = v := by
  obtain ⟨t, gdim, goff, gw⟩ := g
  simp only at hg
  subst hg
  simp only at haddr
  refine ⟨rfl, by simp [getStructFieldInstance], ?_⟩
  intro h' hset
  have hcond : ¬ ((v : Int) > 0xff ∨ v < 0) := by omega
  have hbytes : (bytesLE 1 (twosComp 1 v)).length = 1 := rfl
  have hsetval : setScalarInStructCore (h parent.storageId)
      (parent.offset + fieldOffset + 0 * width)
      ⟨CodecTag.uint8, gdim, goff, gw⟩ 0 v =
      some (writeBytes (h parent.storageId)
        (parent.offset + fieldOffset + goff)
        (bytesLE 1 (twosComp 1 v))) := by
    simp [setScalarInStructCore, hcond]
  simp only [heapSetScalar, getStructFieldInstance, hsetval,
    Option.some.injEq] at hset
  subst hset
  simp only [heapGetScalar, getStructFieldInstance, getScalarInStruct,
    eq_self_iff_true, if_true]
  have hread := readBytes_writeBytes (h parent.storageId)
    (parent.offset + fieldOffset + goff) (bytesLE 1 (twosComp 1 v)) haddr
  rw [hbytes] at hread
  have haddr2 : parent.offset + fieldOffset + 0 * width + goff + 0 * gw =
      parent.offset + fieldOffset + goff := by omega
  rw [haddr2, hread]
  simp only [bytesLE, unsignedOfBytes, twosComp]
  push_cast
  omega

/-- C10 witness: a parent at storage 0 with a struct field at offset 1
holding a uint8 at inner offset 1; writing 200 through the sub-struct is
seen at the shared storage. -/
theorem c10_substruct_witness :
    (getStructFieldInstance ⟨0, 0⟩ 1 2 0).storageId = 0 ∧
    (getStructFieldInstance ⟨0, 0⟩ 1 2 0).offset = 1 :=
  ⟨(c10_substruct_shares_parent_storage (fun _ => [9, 9, 9]) ⟨0, 0⟩ 1 2
      ⟨.uint8, none, 1, 1⟩ 200 rfl (by decide) (by decide) (by decide)).1,
   (c10_substruct_shares_parent_storage (fun _ => [9, 9, 9]) ⟨0, 0⟩ 1 2
      ⟨.uint8, none, 1, 1⟩ 200 rfl (by decide) (by decide) (by decide)).2.1⟩

end RebolFfi
